import Mathlib

/-!
Shallow embedding of the `sonarr_webhook` repository's caching and
synchronization core, covering:

* `src/sonarr_cache.py` — the in-memory `SonarrCache` of shows, seasons
  and episodes with a freshness timestamp;
* `src/sonarr.py` — the `Sonarr` client's `get_series_by_id` lookup and
  the webhook reconciler (`handle_webhook` and its per-event handlers);
* `src/notion_db.py` — the `NotionDB` row-sync operations
  (`create_or_update_row`, `delete_pages_where`, `query_database`,
  `create_page`, `update_page`, `delete_page`) and the static
  `format_property` formatter.

Python's JSON-shaped dynamic values are modelled by the mutual inductive
`JVal`/`JArr`/`JObj` below; Python `dict`s keyed by arbitrary payload
values are modelled as association lists.  Wall-clock time is a natural
number of seconds passed explicitly to the operations that read it.
The remote Notion store is modelled as a list of rows with an idealized
paginated query (a single query response returns at most one page of
matching rows, as the real API does); the Sonarr upstream is modelled as
a record holding the full-catalog listing and a single-series fetch
function.  Fallible Python code returns `Except PyExn`.
-/

/- A JSON-shaped Python value: `None`, booleans, numbers, strings,
lists and (string-keyed) dicts.  Numeric payload values in this
repository are integers (ids, season/episode numbers, counts). -/
mutual

inductive JVal where
  | null
  | bool (b : Bool)
  | num (n : Int)
  | str (s : String)
  | list (xs : JArr)
  | dict (xs : JObj)
  deriving DecidableEq

inductive JArr where
  | nil
  | cons (hd : JVal) (tl : JArr)
  deriving DecidableEq

inductive JObj where
  | nil
  | cons (k : String) (v : JVal) (tl : JObj)
  deriving DecidableEq

end

/-- Build a `JArr` from a Lean list (convenience for concrete payloads). -/
def JArr.ofList : List JVal → JArr
  | [] => .nil
  | v :: t => .cons v (JArr.ofList t)

/-- The Lean list underlying a `JArr`. -/
def JArr.toList : JArr → List JVal
  | .nil => []
  | .cons v t => v :: JArr.toList t

/-- Build a `JObj` from a Lean association list (convenience). -/
def JObj.ofList : List (String × JVal) → JObj
  | [] => .nil
  | (k, v) :: t => .cons k v (JObj.ofList t)

/-- Model of `d.get(key)` on a dict: the value stored under the first matching
key, if any (`None`-valued entries are still "present": `get` returns
the stored `null`). -/
def jobjGet : JObj → String → Option JVal
  | .nil, _ => none
  | .cons k v t, key => if k = key then some v else jobjGet t key

/-- Model of `d[key] = v`: replace the value at an existing key in place,
otherwise append the new entry (Python dicts keep first-insertion
order and last-written value). -/
def jobjSet : JObj → String → JVal → JObj
  | .nil, k, v => .cons k v .nil
  | .cons k0 v0 t, k, v =>
      if k0 = k then .cons k0 v t else .cons k0 v0 (jobjSet t k v)

/-- Model of `old.update(new)` on dicts: write every entry of `new` into `old`,
in order. -/
def jobjUpdate : JObj → JObj → JObj
  | old, .nil => old
  | old, .cons k v t => jobjUpdate (jobjSet old k v) t

/-- The keys of a dict, in order (iterating a dict yields its keys). -/
def JObj.keys : JObj → List String
  | .nil => []
  | .cons k _ t => k :: JObj.keys t

/-- Python truthiness of a JSON-shaped value: `None`, `False`, `0`,
empty strings, lists and dicts are falsy, everything else truthy. -/
def pyTruthy : JVal → Bool
  | .null => false
  | .bool b => b
  | .num n => n != 0
  | .str s => s != ""
  | .list .nil => false
  | .list (.cons _ _) => true
  | .dict .nil => false
  | .dict (.cons _ _ _) => true

/- Python `str(value)` for the values the code renders (f-string
interpolation, `str(...)` in the property formatter).  Container
rendering is simplified (no quoting of inner strings); the verified
claims only render scalars. -/
mutual

def pyStrV : JVal → String
  | .null => "None"
  | .bool b => if b then "True" else "False"
  | .num n => toString n
  | .str s => s
  | .list xs => "[" ++ pyStrA xs ++ "]"
  | .dict xs => "\x7b" ++ pyStrO xs ++ "\x7d"

def pyStrA : JArr → String
  | .nil => ""
  | .cons h t => pyStrV h ++ ", " ++ pyStrA t

def pyStrO : JObj → String
  | .nil => ""
  | .cons k v t => k ++ ": " ++ pyStrV v ++ ", " ++ pyStrO t

end

/-- Model of `pat in s` on strings: `s.splitOn pat` has more than one piece
exactly when the (non-empty) pattern occurs in `s`.  Used to model the
source's `"404" in str(e)` check. -/
def containsSub (s pat : String) : Bool :=
  (s.splitOn pat).length != 1

/-- Association-list lookup, modelling Python dicts keyed by payload
values (e.g. the cache's `shows` dict keyed by the raw series id). -/
def assocGet {α β : Type} [DecidableEq α] : List (α × β) → α → Option β
  | [], _ => none
  | (k, v) :: t, key => if k = key then some v else assocGet t key

/-- Association-list write: replace in place or append, like a Python
dict item assignment. -/
def assocSet {α β : Type} [DecidableEq α] : List (α × β) → α → β → List (α × β)
  | [], k, v => [(k, v)]
  | (k0, v0) :: t, k, v =>
      if k0 = k then (k0, v) :: t else (k0, v0) :: assocSet t k v

/-- Model of `d.update(other)` over association lists: write each entry of
`other` into `d`, in order. -/
def assocUpdate {α β : Type} [DecidableEq α]
    (d : List (α × β)) (other : List (α × β)) : List (α × β) :=
  other.foldl (fun acc kv => assocSet acc kv.1 kv.2) d

/-! Section: `src/sonarr_cache.py` — SonarrCache.

The field `shows` is the Python dict `series_id -> show data`, keyed by the raw
payload value stored under `'id'` (the class annotates the key as
`int`, but `update_show` keys by whatever `show_data.get('id')`
returned, so the model keys by `JVal`).  `seasons` and `episodes` are
keyed by the f-string keys `"{sid}_{sn}"` and `"{sid}_{sn}_{en}"`.
`last_full_update` is the freshness timestamp (`None` until the first
bulk show update); `datetime.now()` is passed in as `now : Nat`
(seconds). -/
structure SonarrCache where
  shows : List (JVal × JObj)
  seasons : List (String × JObj)
  episodes : List (String × JObj)
  last_full_update : Option Nat
  deriving DecidableEq

namespace SonarrCache

/-- Constant `update_interval = timedelta(hours=12)`, in seconds. -/
def update_interval : Nat := 12 * 60 * 60

/-- Method `needs_update`: true if never fully refreshed, or if
`now - last_full_update > update_interval`. -/
def needs_update (c : SonarrCache) (now : Nat) : Bool :=
  match c.last_full_update with
  | none => true
  | some t => now - t > update_interval

/-- Method `update_show`: key the show under its own `'id'` value; a missing
or falsy id is logged and the show is not cached. -/
def update_show (c : SonarrCache) (show_data : JObj) : SonarrCache :=
  let series_id := (jobjGet show_data "id").getD .null
  if pyTruthy series_id then
    { c with shows := assocSet c.shows series_id show_data }
  else
    c

/-- Method `update_season`: cache under the key `f"{series_id}_{season_number}"`
(all callers pass integer arguments here). -/
def update_season (c : SonarrCache) (series_id season_number : Int)
    (season_data : JObj) : SonarrCache :=
  let cache_key := toString series_id ++ "_" ++ toString season_number
  { c with seasons := assocSet c.seasons cache_key season_data }

/-- Method `update_episode`: cache under `f"{series_id}_{season_number}_{episode_number}"`.
The parameters are annotated `int` in the source, but the webhook
handler passes raw payload values, so the key renders them with
Python `str` semantics. -/
def update_episode (c : SonarrCache) (series_id season_number episode_number : JVal)
    (episode_data : JObj) : SonarrCache :=
  let cache_key :=
    pyStrV series_id ++ "_" ++ pyStrV season_number ++ "_" ++ pyStrV episode_number
  { c with episodes := assocSet c.episodes cache_key episode_data }

/-- Method `get_show`: pure lookup by integer series id. -/
def get_show (c : SonarrCache) (series_id : Int) : Option JObj :=
  assocGet c.shows (.num series_id)

/-- Method `get_season`: pure lookup by the `f"{series_id}_{season_number}"` key. -/
def get_season (c : SonarrCache) (series_id season_number : Int) : Option JObj :=
  assocGet c.seasons (toString series_id ++ "_" ++ toString season_number)

/-- Method `get_episode`: pure lookup by the
`f"{series_id}_{season_number}_{episode_number}"` key. -/
def get_episode (c : SonarrCache) (series_id season_number episode_number : Int) :
    Option JObj :=
  assocGet c.episodes
    (toString series_id ++ "_" ++ toString season_number ++ "_" ++
      toString episode_number)

/-- Method `bulk_update_shows`: runs `self.shows.update(shows_data)` and set
`last_full_update = datetime.now()`. -/
def bulk_update_shows (c : SonarrCache) (shows_data : List (JVal × JObj))
    (now : Nat) : SonarrCache :=
  { c with shows := assocUpdate c.shows shows_data, last_full_update := some now }

/-- Method `bulk_update_seasons`: runs `self.seasons.update(seasons_data)`; the
freshness timestamp is not touched. -/
def bulk_update_seasons (c : SonarrCache) (seasons_data : List (String × JObj)) :
    SonarrCache :=
  { c with seasons := assocUpdate c.seasons seasons_data }

/-- Method `bulk_update_episodes`: runs `self.episodes.update(episodes_data)`; the
freshness timestamp is not touched. -/
def bulk_update_episodes (c : SonarrCache) (episodes_data : List (String × JObj)) :
    SonarrCache :=
  { c with episodes := assocUpdate c.episodes episodes_data }

/-- Method `clear`: drop every entry and reset `last_full_update` to `None`. -/
def clear (_c : SonarrCache) : SonarrCache :=
  { shows := [], seasons := [], episodes := [], last_full_update := none }

end SonarrCache

/-! Section: `src/sonarr.py` — the Sonarr client and webhook reconciler. -/

/-- Python exceptions the modelled code can raise: `SonarrError` and
`NotionDBError` (each carrying their message), plus the builtin
`IndexError`, `KeyError`, `ValueError`, `TypeError` and
`AttributeError` the dynamic code can hit. -/
inductive PyExn where
  | sonarrError (msg : String)
  | notionError (msg : String)
  | indexError
  | keyError
  | valueError (msg : String)
  | typeError (msg : String)
  | attributeError (msg : String)
  deriving DecidableEq

/-- The Sonarr upstream API, at the boundary the client calls:
`series` is the response of `GET /api/v3/series` (the full catalog);
`getOne sid` is the response of `GET /api/v3/series/{sid}`, either a
payload or the message of the `SonarrError` that `_make_request`
wraps a transport/HTTP failure into (a 404 surfaces as a message
containing `"404"`). -/
structure SonarrUpstream where
  series : List JObj
  getOne : Int → Except String JObj

/-- Model of the comprehension `{show['id']: show for show in shows}`:
`none` models the `KeyError` raised when a show lacks an `'id'` key.
Duplicate ids collapse to the last occurrence exactly as in Python,
because the association-list writes happen in order. -/
def showsDataOf (shows : List JObj) : Option (List (JVal × JObj)) :=
  shows.mapM fun s => (jobjGet s "id").map fun v => (v, s)

/-- Truthiness of `cached_show` (an `Optional[dict]`): `None` and the
empty dict are falsy. -/
def objTruthy : Option JObj → Bool
  | none => false
  | some .nil => false
  | some (.cons _ _ _) => true

/-- Final fall-through of `get_series_by_id` (source lines 118-128):
fetch `series/{id}`, cache it via `update_show`, and return it; a
`SonarrError` whose message contains `"404"` yields `None`, any other
`SonarrError` is re-raised.  `nreq` counts upstream requests made so
far; the result triple is (returned value, cache, request count). -/
def getSeriesByIdFetchOne (c : SonarrCache) (up : SonarrUpstream)
    (series_id : Int) (nreq : Nat) :
    Except PyExn (Option JObj × SonarrCache × Nat) :=
  match up.getOne series_id with
  | .ok shw => .ok (some shw, c.update_show shw, nreq + 1)
  | .error msg =>
      if containsSub msg "404" then .ok (none, c, nreq + 1)
      else .error (.sonarrError msg)

/-- Cache-miss path of `get_series_by_id` (source lines 106-128): if
the cache is stale, refresh all shows (`bulk_update_shows`, one
request) and re-check; otherwise (or if still absent/falsy) fall
through to the single-series fetch. -/
def getSeriesByIdMiss (c : SonarrCache) (now : Nat) (up : SonarrUpstream)
    (series_id : Int) : Except PyExn (Option JObj × SonarrCache × Nat) :=
  if c.needs_update now then
    match showsDataOf up.series with
    | none => .error .keyError
    | some shows_data =>
        let c1 := c.bulk_update_shows shows_data now
        match c1.get_show series_id with
        | some o =>
            if objTruthy (some o) then .ok (some o, c1, 1)
            else getSeriesByIdFetchOne c1 up series_id 1
        | none => getSeriesByIdFetchOne c1 up series_id 1
  else
    getSeriesByIdFetchOne c up series_id 0

/-- Method `get_series_by_id`: return the cached show when present and
truthy, otherwise run the miss path.  The `Nat` in the result is the
number of upstream requests the call performed. -/
def get_series_by_id (c : SonarrCache) (now : Nat) (up : SonarrUpstream)
    (series_id : Int) : Except PyExn (Option JObj × SonarrCache × Nat) :=
  match c.get_show series_id with
  | some o =>
      if objTruthy (some o) then .ok (some o, c, 0)
      else getSeriesByIdMiss c now up series_id
  | none => getSeriesByIdMiss c now up series_id

/-- Model of `value[0]` on a payload value: first element of a list
(`IndexError` when empty), first character of a string, `KeyError` for
a dict (our dicts are string-keyed, so the integer key `0` is never
present), `TypeError` for non-subscriptable values. -/
def pyGetItem0 : JVal → Except PyExn JVal
  | .list .nil => .error .indexError
  | .list (.cons h _) => .ok h
  | .str s =>
      match s.toList with
      | [] => .error .indexError
      | ch :: _ => .ok (.str (String.mk [ch]))
  | .dict _ => .error .keyError
  | _ => .error (.typeError "object is not subscriptable")

/-- Model of calling `.get` on a payload value: only dicts have the
attribute, anything else raises `AttributeError`. -/
def asObj : JVal → Except PyExn JObj
  | .dict o => .ok o
  | _ => .error (.attributeError "object has no attribute get")

/-- Handler `_handle_download_event`: take `series` (default `{}`) and
`episodes[0]` (default `[{}]`, so the default first episode is `{}`);
if the series id is truthy, upsert the show and — when both
`seasonNumber` and `episodeNumber` are not `None` — the episode.
Attribute/index accesses happen in source order: the `[0]` indexing
(line 210), then `series.get('id')` (line 213), then `episode.get(...)`
(line 217 or the log line 222). -/
def handleDownloadEvent (c : SonarrCache) (event_data : JObj) :
    Except PyExn SonarrCache := do
  let seriesV := (jobjGet event_data "series").getD (.dict .nil)
  let episodesV :=
    (jobjGet event_data "episodes").getD (.list (.cons (.dict .nil) .nil))
  let epV ← pyGetItem0 episodesV
  let series ← asObj seriesV
  let series_id := (jobjGet series "id").getD .null
  if pyTruthy series_id then
    let c1 := c.update_show series
    let episode ← asObj epV
    let season_num := (jobjGet episode "seasonNumber").getD .null
    let ep_num := (jobjGet episode "episodeNumber").getD .null
    if season_num ≠ JVal.null ∧ ep_num ≠ JVal.null then
      return c1.update_episode series_id season_num ep_num episode
    else
      return c1
  else
    let _ ← asObj epV
    return c

/-- Handler `_handle_grab_event`: log-only; it still extracts
`series`, `episodes[0]` and their fields for the log line, so the same
dynamic errors can occur, but the cache is never mutated. -/
def handleGrabEvent (c : SonarrCache) (event_data : JObj) :
    Except PyExn SonarrCache := do
  let seriesV := (jobjGet event_data "series").getD (.dict .nil)
  let episodesV :=
    (jobjGet event_data "episodes").getD (.list (.cons (.dict .nil) .nil))
  let epV ← pyGetItem0 episodesV
  let _ ← asObj seriesV
  let _ ← asObj epV
  return c

/-- Handler `_handle_rename_event`: upsert the show when its id is
truthy; no episode-level effect. -/
def handleRenameEvent (c : SonarrCache) (event_data : JObj) :
    Except PyExn SonarrCache := do
  let seriesV := (jobjGet event_data "series").getD (.dict .nil)
  let series ← asObj seriesV
  let series_id := (jobjGet series "id").getD .null
  if pyTruthy series_id then
    return c.update_show series
  else
    return c

/-- Method `handle_webhook`: read `eventType`; a missing or falsy
value is logged and the event dropped; `Download`/`Grab`/`Rename`
dispatch to their handlers; any other value is logged as unhandled
with no mutation.  The surrounding `try/except` logs and re-raises,
so handler exceptions propagate to the caller unchanged. -/
def handle_webhook (c : SonarrCache) (event_data : JObj) :
    Except PyExn SonarrCache :=
  match jobjGet event_data "eventType" with
  | none => .ok c
  | some event_type =>
      if pyTruthy event_type then
        if event_type = JVal.str "Download" then handleDownloadEvent c event_data
        else if event_type = JVal.str "Grab" then handleGrabEvent c event_data
        else if event_type = JVal.str "Rename" then handleRenameEvent c event_data
        else .ok c
      else .ok c

/-! Section: `src/notion_db.py` — the Notion row-sync operations.

The remote store behind the `databases/{id}/query`, `pages` and
`pages/{id}` endpoints is modelled as a list of rows (each a page:
id, properties, archived flag) plus a fresh-id counter.  Row ids are
naturals standing in for Notion's page-id strings.  The API returns
query results in pages of at most `pageSize` matching rows
(`has_more`/`next_cursor` marking the remainder); `query_database`
in the source reads only `results` from a single response, so its
model returns just that first page.  Filters are passed opaquely to
the API by the source, so they are modelled by the predicate on row
properties that the remote evaluates; the source's truthiness test on
the filter dict is modelled as presence (Notion filters are non-empty
objects). -/

/-- A remote page (row) of a Notion database. -/
structure NRow where
  id : Nat
  props : JObj
  archived : Bool
  deriving DecidableEq

/-- The remote Notion database state: its rows in creation order, the
next fresh page id, and the response page size (100 in the real API;
kept abstract but positive). -/
structure NotionStore where
  rows : List NRow
  nextId : Nat
  pageSize : Nat
  deriving DecidableEq

/-- A query filter, by the predicate the remote evaluates on a row's
properties (archived rows are never returned regardless). -/
def NFilter : Type := JObj → Bool

/-- Well-formedness of the remote store: page ids are pairwise
distinct and below the fresh-id counter, and responses hold at least
one row per page. -/
def NotionStore.WF (st : NotionStore) : Prop :=
  st.rows.Pairwise (fun r q => r.id ≠ q.id) ∧
    (∀ r ∈ st.rows, r.id < st.nextId) ∧ 0 < st.pageSize

instance (st : NotionStore) : Decidable st.WF := by
  unfold NotionStore.WF; infer_instance

/-- Method `query_database`: POST one query (with the filter when one
is supplied) and read `results` — i.e. the first response page of
non-archived matching rows.  The continuation cursor of the response
is ignored, exactly as in the source. -/
def query_database (st : NotionStore) (filter_params : Option NFilter) :
    List NRow :=
  (st.rows.filter fun r =>
    !r.archived &&
      (match filter_params with
       | some f => f r.props
       | none => true)).take st.pageSize

/-- Method `create_page`: create a new page with the given properties
in the database; the response is the created page object. -/
def create_page (st : NotionStore) (properties : JObj) : NRow × NotionStore :=
  let r : NRow := { id := st.nextId, props := properties, archived := false }
  (r, { st with rows := st.rows ++ [r], nextId := st.nextId + 1 })

/-- Method `update_page`: PATCH the page's properties (the remote
merges them key-by-key into the existing properties); the response is
the updated page object.  PATCHing an unknown page id is a remote
error, surfaced as `NotionDBError`. -/
def update_page (st : NotionStore) (page_id : Nat) (properties : JObj) :
    Except PyExn (NRow × NotionStore) :=
  match st.rows.find? (fun r => r.id == page_id) with
  | none => .error (.notionError "page not found")
  | some r =>
      .ok ({ r with props := jobjUpdate r.props properties },
        { st with rows := st.rows.map fun q =>
            if q.id == page_id then { q with props := jobjUpdate q.props properties }
            else q })

/-- Method `delete_page`: PATCH `archived: true` (a soft delete). -/
def delete_page (st : NotionStore) (page_id : Nat) : NotionStore :=
  { st with rows := st.rows.map fun q =>
      if q.id == page_id then { q with archived := true } else q }

/-- Method `create_or_update_row`: when a (truthy) filter is supplied,
query for matching rows and, if any were returned, update the first
match; otherwise — no filter, or no match — create a new page with the
given properties. -/
def create_or_update_row (st : NotionStore) (properties : JObj)
    (filter_params : Option NFilter) : Except PyExn (NRow × NotionStore) :=
  match filter_params with
  | some f =>
      match query_database st (some f) with
      | p :: _ => update_page st p.id properties
      | [] => .ok (create_page st properties)
  | none => .ok (create_page st properties)

/-- Method `delete_pages_where`: run one `query_database` with the
filter, archive each returned page, and return how many were archived
(the count of delete calls made). -/
def delete_pages_where (st : NotionStore) (filter_params : NFilter) :
    Nat × NotionStore :=
  let pages := query_database st (some filter_params)
  (pages.length, pages.foldl (fun acc p => delete_page acc p.id) st)

/-- The `NotionPropertyType` enum, constructor for constructor. -/
inductive NotionPropertyType where
  | TITLE
  | RICH_TEXT
  | NUMBER
  | SELECT
  | MULTI_SELECT
  | DATE
  | PEOPLE
  | FILES
  | CHECKBOX
  | URL
  | EMAIL
  | PHONE_NUMBER
  | FORMULA
  | RELATION
  | ROLLUP
  | CREATED_TIME
  | CREATED_BY
  | LAST_EDITED_TIME
  | LAST_EDITED_BY
  deriving DecidableEq

/-- Python's rendering of an enum member, as interpolated into the
`ValueError` message of `format_property`. -/
def NotionPropertyType.pyName : NotionPropertyType → String
  | .TITLE => "NotionPropertyType.TITLE"
  | .RICH_TEXT => "NotionPropertyType.RICH_TEXT"
  | .NUMBER => "NotionPropertyType.NUMBER"
  | .SELECT => "NotionPropertyType.SELECT"
  | .MULTI_SELECT => "NotionPropertyType.MULTI_SELECT"
  | .DATE => "NotionPropertyType.DATE"
  | .PEOPLE => "NotionPropertyType.PEOPLE"
  | .FILES => "NotionPropertyType.FILES"
  | .CHECKBOX => "NotionPropertyType.CHECKBOX"
  | .URL => "NotionPropertyType.URL"
  | .EMAIL => "NotionPropertyType.EMAIL"
  | .PHONE_NUMBER => "NotionPropertyType.PHONE_NUMBER"
  | .FORMULA => "NotionPropertyType.FORMULA"
  | .RELATION => "NotionPropertyType.RELATION"
  | .ROLLUP => "NotionPropertyType.ROLLUP"
  | .CREATED_TIME => "NotionPropertyType.CREATED_TIME"
  | .CREATED_BY => "NotionPropertyType.CREATED_BY"
  | .LAST_EDITED_TIME => "NotionPropertyType.LAST_EDITED_TIME"
  | .LAST_EDITED_BY => "NotionPropertyType.LAST_EDITED_BY"

/-- Mantissa of a Python float literal: `digits`, `digits.`,
`.digits` or `digits.digits` (at least one digit overall). -/
def floatMantissaOk (cs : List Char) : Bool :=
  let p := cs.span Char.isDigit
  match p.2 with
  | [] => !p.1.isEmpty
  | '.' :: rest =>
      let q := rest.span Char.isDigit
      q.2.isEmpty && (!p.1.isEmpty || !q.1.isEmpty)
  | _ => false

/-- Split a character list at the first `e`/`E` (exponent marker). -/
def splitAtExp : List Char → List Char × Option (List Char)
  | [] => ([], none)
  | ch :: t =>
      if ch = 'e' ∨ ch = 'E' then ([], some t)
      else
        let r := splitAtExp t
        (ch :: r.1, r.2)

/-- An optional sign followed by at least one digit (a float
exponent). -/
def signedDigitsOk (cs : List Char) : Bool :=
  let cs' := match cs with
    | '+' :: t => t
    | '-' :: t => t
    | t => t
  !cs'.isEmpty && cs'.all Char.isDigit

/-- Strip leading and trailing whitespace from a character list
(the whitespace stripping `float()` applies to its argument). -/
def stripWs (cs : List Char) : List Char :=
  ((cs.dropWhile Char.isWhitespace).reverse.dropWhile Char.isWhitespace).reverse

/-- Whether Python `float(s)` succeeds on the string `s`: optional
surrounding whitespace and sign, a decimal mantissa, an optional
exponent.  (The `inf`/`nan` spellings and digit-group underscores are
not modelled; no claim exercises them.) -/
def isFloatLit (s : String) : Bool :=
  let cs := stripWs s.toList
  let cs' := match cs with
    | '+' :: t => t
    | '-' :: t => t
    | t => t
  let me := splitAtExp cs'
  floatMantissaOk me.1 &&
    (match me.2 with
     | none => true
     | some ex => signedDigitsOk ex)

/-- Whether Python `float(value)` succeeds: numbers and booleans
convert, strings convert when they spell a float literal, everything
else raises. -/
def pyFloatOk : JVal → Bool
  | .num _ => true
  | .bool _ => true
  | .str s => isFloatLit s
  | _ => false

/-- The converted value stored under `"number"`.  Integers and
booleans keep their exact value; for numeric strings the numeric
reading is not modelled (only conversion success matters to the
claims), so the string is kept. -/
def floatRep : JVal → JVal
  | .num n => .num n
  | .bool b => .num (if b then 1 else 0)
  | v => v

/-- Iteration over a payload value (`for item in value`): lists yield
their elements, strings their characters, dicts their keys; anything
else raises `TypeError`. -/
def pyIterate : JVal → Except PyExn (List JVal)
  | .list xs => .ok xs.toList
  | .str s => .ok (s.toList.map fun ch => .str (String.mk [ch]))
  | .dict o => .ok (o.keys.map fun k => .str k)
  | _ => .error (.typeError "object is not iterable")

/-- A `{"text": {"content": s}}` fragment of a title/rich-text
payload. -/
def mkTextItem (s : String) : JVal :=
  .dict (.cons "text" (.dict (.cons "content" (.str s) .nil)) .nil)

/-- A one-entry dict. -/
def jobj1 (k : String) (v : JVal) : JObj :=
  .cons k v .nil

/-- Static method `format_property`: map a raw value to the remote
store's shape for the given property type, branch for branch.  The
unsupported types fall through to `ValueError` immediately (the
function performs no I/O); `NUMBER` applies `float(value)` to
non-`None` values and `MULTI_SELECT` iterates the value, so those
conversions can also raise, as in Python. -/
def format_property (prop_type : NotionPropertyType) (value : JVal) :
    Except PyExn JObj :=
  match prop_type with
  | .TITLE =>
      .ok (jobj1 "title" (.list (.cons (mkTextItem (pyStrV value)) .nil)))
  | .RICH_TEXT =>
      .ok (jobj1 "rich_text" (.list (.cons (mkTextItem (pyStrV value)) .nil)))
  | .NUMBER =>
      if value = JVal.null then .ok (jobj1 "number" .null)
      else if pyFloatOk value then .ok (jobj1 "number" (floatRep value))
      else .error (.valueError ("could not convert to float: " ++ pyStrV value))
  | .SELECT =>
      .ok (jobj1 "select" (.dict (jobj1 "name" (.str (pyStrV value)))))
  | .MULTI_SELECT =>
      match pyIterate value with
      | .error e => .error e
      | .ok items =>
          .ok (jobj1 "multi_select"
            (.list (JArr.ofList (items.map fun item =>
              .dict (jobj1 "name" (.str (pyStrV item)))))))
  | .DATE =>
      .ok (jobj1 "date" (.dict (jobj1 "start" (.str (pyStrV value)))))
  | .CHECKBOX =>
      .ok (jobj1 "checkbox" (.bool (pyTruthy value)))
  | .URL =>
      .ok (jobj1 "url" (.str (pyStrV value)))
  | .FILES =>
      match value with
      | .dict d =>
          match jobjGet d "url" with
          | some u =>
              .ok (jobj1 "files" (.list (.cons
                (.dict (.cons "type" (.str "external")
                  (.cons "name" ((jobjGet d "name").getD (.str "External File"))
                    (.cons "external" (.dict (jobj1 "url" u)) .nil)))) .nil)))
          | none => .ok (jobj1 "files" (.list (.cons value .nil)))
      | .list xs => .ok (jobj1 "files" (.list xs))
      | v => .ok (jobj1 "files" (.list (.cons v .nil)))
  | other =>
      .error (.valueError ("Unsupported property type: " ++ other.pyName))

/-- The property types `format_property` supports (every other member
of the enum falls through to the `ValueError` branch). -/
def NotionPropertyType.supported : NotionPropertyType → Bool
  | .TITLE | .RICH_TEXT | .NUMBER | .SELECT | .MULTI_SELECT
  | .DATE | .CHECKBOX | .URL | .FILES => true
  | _ => false

/-- Predicate on (supported type, value) pairs under which the
type-specific conversion inside `format_property` succeeds: `NUMBER`
needs `None` or a value `float()` accepts, `MULTI_SELECT` needs an
iterable value; every other supported branch is total. -/
def formatConvOk (prop_type : NotionPropertyType) (value : JVal) : Bool :=
  match prop_type with
  | .NUMBER => value == JVal.null || pyFloatOk value
  | .MULTI_SELECT =>
      match value with
      | .list _ | .str _ | .dict _ => true
      | _ => false
  | _ => true

deriving instance DecidableEq for Except

/-! Section: helper lemmas shared by the verification theorems. -/

theorem assocGet_set_self {α β : Type} [DecidableEq α]
    (l : List (α × β)) (k : α) (v : β) :
    assocGet (assocSet l k v) k = some v := by
  induction l with
  | nil => simp [assocSet, assocGet]
  | cons hd t ih =>
      obtain ⟨k0, v0⟩ := hd
      by_cases h : k0 = k
      · simp [assocSet, assocGet, h]
      · simp [assocSet, assocGet, h, ih]

theorem assocGet_set_other {α β : Type} [DecidableEq α]
    (l : List (α × β)) (k k' : α) (v : β) (hk : k ≠ k') :
    assocGet (assocSet l k v) k' = assocGet l k' := by
  induction l with
  | nil => simp [assocSet, assocGet, hk]
  | cons hd t ih =>
      obtain ⟨k0, v0⟩ := hd
      by_cases h : k0 = k
      · subst h
        simp [assocSet, assocGet, hk]
      · simp [assocSet, assocGet, h, ih]



theorem objTruthy_some_iff (o : JObj) : objTruthy (some o) = true ↔ o ≠ JObj.nil := by
  cases o <;> simp [objTruthy]

theorem objTruthy_none : objTruthy none = false := rfl

/-- In a row list with pairwise-distinct ids, looking a member row up
by its id finds exactly that row. -/
theorem find_by_id_of_mem (l : List NRow) (p : NRow) (hp : p ∈ l)
    (hnd : l.Pairwise (fun r q => r.id ≠ q.id)) :
    l.find? (fun r => r.id == p.id) = some p := by
  induction l with
  | nil => cases hp
  | cons q t ih =>
      rcases List.mem_cons.mp hp with h | h
      · subst h
        simp [List.find?]
      · have hq : q.id ≠ p.id := (List.pairwise_cons.mp hnd).1 p h
        have ht : t.Pairwise (fun r q => r.id ≠ q.id) := (List.pairwise_cons.mp hnd).2
        have hqf : (q.id == p.id) = false := beq_eq_false_iff_ne.mpr hq
        simp [List.find?, hqf, ih h ht]

/-! Section: verification of the claims. -/

/-- C4: in every cache state, `needs_update` returns true immediately
after `clear()` (the cache counts as never refreshed) and false
immediately after any `bulk_update_shows` (the freshness timestamp is
set to now, which is within the 12-hour staleness interval). -/
theorem claim_C4_needs_update_after_clear_and_bulk (c : SonarrCache)
    (now : Nat) (shows_data : List (JVal × JObj)) :
    (c.clear).needs_update now = true ∧
      (c.bulk_update_shows shows_data now).needs_update now = false := by
  constructor
  · simp [SonarrCache.clear, SonarrCache.needs_update]
  · simp [SonarrCache.bulk_update_shows, SonarrCache.needs_update,
      SonarrCache.update_interval]

/-- C5: the single-entity operations `update_show`, `update_season`,
`update_episode` and the bulk operations `bulk_update_seasons`,
`bulk_update_episodes` leave the freshness timestamp unchanged, in
every cache state and for every input; `bulk_update_shows` sets it to
now (the only operation advancing it), and `clear` resets it to
"never refreshed". -/
theorem claim_C5_freshness_frame (c : SonarrCache) (show_data : JObj)
    (sid sn : Int) (esid esn een : JVal) (season_data episode_data : JObj)
    (seasons_data episodes_data : List (String × JObj))
    (shows_data : List (JVal × JObj)) (now : Nat) :
    (c.update_show show_data).last_full_update = c.last_full_update ∧
    (c.update_season sid sn season_data).last_full_update = c.last_full_update ∧
    (c.update_episode esid esn een episode_data).last_full_update
      = c.last_full_update ∧
    (c.bulk_update_seasons seasons_data).last_full_update = c.last_full_update ∧
    (c.bulk_update_episodes episodes_data).last_full_update
      = c.last_full_update ∧
    (c.bulk_update_shows shows_data now).last_full_update = some now ∧
    (c.clear).last_full_update = none := by
  refine ⟨?_, rfl, rfl, rfl, rfl, rfl, rfl⟩
  simp only [SonarrCache.update_show]
  split <;> rfl

/-- C3 (counterexample): the claim quantifies over every series id X,
but `_handle_download_event` guards the cache update with Python
truthiness of the id, so a Download event whose series id is 0 updates
nothing: the cache comes back unchanged and both `get_episode(0,1,2)`
and `get_show(0)` return absent instead of the event's payloads. -/
theorem claim_C3_counterexample :
    handle_webhook ⟨[], [], [], none⟩
      (JObj.ofList
        [("eventType", .str "Download"),
         ("series", .dict (JObj.ofList [("id", .num 0)])),
         ("episodes", .list (JArr.ofList [.dict (JObj.ofList
            [("seasonNumber", .num 1), ("episodeNumber", .num 2)])]))]) =
      .ok (⟨[], [], [], none⟩ : SonarrCache) ∧
    (⟨[], [], [], none⟩ : SonarrCache).get_episode 0 1 2 = none ∧
    (⟨[], [], [], none⟩ : SonarrCache).get_show 0 = none := by
  refine ⟨?_, rfl, rfl⟩
  decide

/-- C3 (amended): after applying a Download webhook event whose
payload carries a series with *nonzero* id X and a first episode with
seasonNumber S and episodeNumber E, `get_episode(X,S,E)` returns
exactly that event's episode payload and `get_show(X)` returns the
event's series payload, with no full refresh having occurred (the
freshness timestamp is untouched). -/
theorem claim_C3_download_event_updates_cache (c : SonarrCache)
    (ev series episode : JObj) (rest : JArr) (X S E : Int) (hX : X ≠ 0)
    (hev : jobjGet ev "eventType" = some (.str "Download"))
    (hs : jobjGet ev "series" = some (.dict series))
    (he : jobjGet ev "episodes" = some (.list (.cons (.dict episode) rest)))
    (hid : jobjGet series "id" = some (.num X))
    (hsn : jobjGet episode "seasonNumber" = some (.num S))
    (hen : jobjGet episode "episodeNumber" = some (.num E)) :
    ∃ c', handle_webhook c ev = .ok c' ∧
      c'.get_episode X S E = some episode ∧
      c'.get_show X = some series ∧
      c'.last_full_update = c.last_full_update := by
  have hXb : ((X : Int) != 0) = true := by simpa using hX
  refine ⟨({ c with
      shows := assocSet c.shows (JVal.num X) series,
      episodes := assocSet c.episodes
        (toString X ++ "_" ++ toString S ++ "_" ++ toString E) episode } :
      SonarrCache), ?_, ?_, ?_, rfl⟩
  · simp [handle_webhook, hev, handleDownloadEvent, hs, he, hid, hsn, hen,
      pyGetItem0, asObj, pyTruthy, hXb, SonarrCache.update_show,
      SonarrCache.update_episode, pyStrV, bind, Except.bind, pure, Except.pure]
  · simp [SonarrCache.get_episode, assocGet_set_self]
  · simp [SonarrCache.get_show, assocGet_set_self]

/-- C3 (witness): the amended theorem applied to a concrete Download
event for series 5, episode S1E2, starting from the empty cache. -/
theorem claim_C3_download_event_updates_cache_witness :
    ∃ c', handle_webhook ⟨[], [], [], none⟩
        (JObj.ofList
          [("eventType", .str "Download"),
           ("series", .dict (JObj.ofList
              [("id", .num 5), ("title", .str "Show A")])),
           ("episodes", .list (JArr.ofList [.dict (JObj.ofList
              [("seasonNumber", .num 1), ("episodeNumber", .num 2),
               ("title", .str "Pilot")])]))]) = .ok c' ∧
      c'.get_episode 5 1 2 = some (JObj.ofList
        [("seasonNumber", .num 1), ("episodeNumber", .num 2),
         ("title", .str "Pilot")]) ∧
      c'.get_show 5 = some (JObj.ofList
        [("id", .num 5), ("title", .str "Show A")]) ∧
      c'.last_full_update = (⟨[], [], [], none⟩ : SonarrCache).last_full_update :=
  claim_C3_download_event_updates_cache ⟨[], [], [], none⟩ _ _ _ _ 5 1 2
    (by decide) rfl rfl rfl rfl rfl rfl

/-- C7: for every webhook payload, `handle_webhook` returns normally
(never raises) and leaves the cache completely unchanged both when the
`eventType` field is missing (the event is logged and dropped) and
when the event kind is present but not one of the recognized
`Download`/`Grab`/`Rename` kinds (logged as unhandled, no mutation). -/
theorem claim_C7_unrecognized_and_missing_event_type (c : SonarrCache)
    (event_data : JObj) :
    (jobjGet event_data "eventType" = none →
      handle_webhook c event_data = .ok c) ∧
    (∀ event_type, jobjGet event_data "eventType" = some event_type →
      event_type ≠ .str "Download" → event_type ≠ .str "Grab" →
      event_type ≠ .str "Rename" →
      handle_webhook c event_data = .ok c) := by
  constructor
  · intro h
    simp [handle_webhook, h]
  · intro et het hD hG hR
    cases hpy : pyTruthy et <;>
      simp [handle_webhook, het, hpy, hD, hG, hR]

/-- C7 (witness): a concrete unrecognized event kind
(`EpisodeFileDelete`) is dropped with the cache unchanged. -/
theorem claim_C7_unrecognized_and_missing_event_type_witness :
    handle_webhook ⟨[], [], [], none⟩
        (JObj.ofList [("eventType", .str "EpisodeFileDelete")]) =
      .ok (⟨[], [], [], none⟩ : SonarrCache) :=
  (claim_C7_unrecognized_and_missing_event_type ⟨[], [], [], none⟩
      (JObj.ofList [("eventType", .str "EpisodeFileDelete")])).2
    (.str "EpisodeFileDelete") rfl (by decide) (by decide) (by decide)

/-- C10: a webhook payload with event type Download (and likewise
Grab) whose `episodes` key is present but holds an empty list makes
the `event_data.get('episodes', [{}])[0]` indexing raise `IndexError`
(the `.get` default is not used because the key is present), and
`handle_webhook` re-raises that exception to its caller instead of
dropping the event. -/
theorem claim_C10_empty_episodes_list_raises :
    handle_webhook ⟨[], [], [], none⟩
      (JObj.ofList
        [("eventType", .str "Download"),
         ("series", .dict (JObj.ofList [("id", .num 5)])),
         ("episodes", .list .nil)]) = .error .indexError ∧
    handle_webhook ⟨[], [], [], none⟩
      (JObj.ofList
        [("eventType", .str "Grab"),
         ("series", .dict (JObj.ofList [("id", .num 5)])),
         ("episodes", .list .nil)]) = .error .indexError := by
  constructor <;> decide

/-- C6 (counterexample): the claim quantifies over every show id whose
record is already in the cache, but `get_series_by_id` tests the
cached record with Python truthiness, so an empty-dict record stored
for id 7 is skipped: with a fresh (non-stale) cache the call falls
through to the single-entity fetch, returning the upstream record
(not the cached one) after 1 upstream request instead of 0. -/
theorem claim_C6_counterexample :
    get_series_by_id ⟨[(.num 7, JObj.nil)], [], [], some 50⟩ 60
        ⟨[], fun _ => .ok (JObj.ofList [("id", .num 7), ("title", .str "Show B")])⟩
        7 =
      .ok (some (JObj.ofList [("id", .num 7), ("title", .str "Show B")]),
        ⟨[(.num 7, JObj.ofList [("id", .num 7), ("title", .str "Show B")])],
          [], [], some 50⟩, 1) ∧
    JObj.ofList [("id", .num 7), ("title", .str "Show B")] ≠ JObj.nil := by
  constructor
  · decide
  · decide

/-- C6 (amended): for every show id whose record is already in the
cache *and is non-empty (truthy)*, `get_series_by_id` returns that
identical cached record with zero upstream requests; on a cache miss
(no record, or an empty falsy one) with a fresh cache it goes straight
to the single-entity fetch, which it stores through the cache's
`update_show` and returns (absent — not an error — when the upstream
reports a 404); with a stale cache it first performs the full-catalog
refresh (one request) and re-checks, returning the then-cached record
if truthy, and otherwise falls back to the same single-entity fetch
with one extra request. -/
theorem claim_C6_get_series_by_id_cache_behavior (c : SonarrCache)
    (now : Nat) (up : SonarrUpstream) (sid : Int) :
    (∀ o, c.get_show sid = some o → o ≠ JObj.nil →
        get_series_by_id c now up sid = .ok (some o, c, 0)) ∧
    (objTruthy (c.get_show sid) = false → c.needs_update now = false →
      (∀ s, up.getOne sid = .ok s →
          get_series_by_id c now up sid = .ok (some s, c.update_show s, 1)) ∧
      (∀ msg, up.getOne sid = .error msg → containsSub msg "404" = true →
          get_series_by_id c now up sid = .ok (none, c, 1))) ∧
    (objTruthy (c.get_show sid) = false → c.needs_update now = true →
      ∀ shows_data, showsDataOf up.series = some shows_data →
        (∀ o, (c.bulk_update_shows shows_data now).get_show sid = some o →
            o ≠ JObj.nil →
            get_series_by_id c now up sid =
              .ok (some o, c.bulk_update_shows shows_data now, 1)) ∧
        (objTruthy ((c.bulk_update_shows shows_data now).get_show sid) = false →
          (∀ s, up.getOne sid = .ok s →
              get_series_by_id c now up sid =
                .ok (some s, (c.bulk_update_shows shows_data now).update_show s, 2)) ∧
          (∀ msg, up.getOne sid = .error msg → containsSub msg "404" = true →
              get_series_by_id c now up sid =
                .ok (none, c.bulk_update_shows shows_data now, 2)))) := by
  refine ⟨?_, ?_, ?_⟩
  · intro o ho hne
    have ht : objTruthy (some o) = true := (objTruthy_some_iff o).mpr hne
    simp [get_series_by_id, ho, ht]
  · intro hmiss hfresh
    have hrun : get_series_by_id c now up sid = getSeriesByIdMiss c now up sid := by
      cases hc : c.get_show sid with
      | none => simp [get_series_by_id, hc]
      | some o =>
          have : objTruthy (some o) = false := by rw [← hc]; exact hmiss
          simp [get_series_by_id, hc, this]
    constructor
    · intro s hs
      rw [hrun]
      simp [getSeriesByIdMiss, hfresh, getSeriesByIdFetchOne, hs]
    · intro msg hm h404
      rw [hrun]
      simp [getSeriesByIdMiss, hfresh, getSeriesByIdFetchOne, hm, h404]
  · intro hmiss hstale shows_data hdata
    have hrun : get_series_by_id c now up sid = getSeriesByIdMiss c now up sid := by
      cases hc : c.get_show sid with
      | none => simp [get_series_by_id, hc]
      | some o =>
          have : objTruthy (some o) = false := by rw [← hc]; exact hmiss
          simp [get_series_by_id, hc, this]
    constructor
    · intro o ho hne
      have ht : objTruthy (some o) = true := (objTruthy_some_iff o).mpr hne
      rw [hrun]
      simp [getSeriesByIdMiss, hstale, hdata, ho, ht]
    · intro hmiss2
      have hfetch : getSeriesByIdMiss c now up sid =
          getSeriesByIdFetchOne (c.bulk_update_shows shows_data now) up sid 1 := by
        cases hc : (c.bulk_update_shows shows_data now).get_show sid with
        | none => simp [getSeriesByIdMiss, hstale, hdata, hc]
        | some o =>
            have : objTruthy (some o) = false := by rw [← hc]; exact hmiss2
            simp [getSeriesByIdMiss, hstale, hdata, hc, this]
      constructor
      · intro s hs
        rw [hrun, hfetch]
        simp [getSeriesByIdFetchOne, hs]
      · intro msg hm h404
        rw [hrun, hfetch]
        simp [getSeriesByIdFetchOne, hm, h404]

/-- C6 (witness): the amended theorem at a concrete cache holding a
non-empty record for id 7 — the cached record is returned with zero
upstream requests. -/
theorem claim_C6_get_series_by_id_cache_behavior_witness :
    get_series_by_id ⟨[(.num 7, JObj.ofList [("id", .num 7)])], [], [], some 50⟩
        60 ⟨[], fun _ => .error "HTTP 500"⟩ 7 =
      .ok (some (JObj.ofList [("id", .num 7)]),
        ⟨[(.num 7, JObj.ofList [("id", .num 7)])], [], [], some 50⟩, 0) :=
  (claim_C6_get_series_by_id_cache_behavior
      ⟨[(.num 7, JObj.ofList [("id", .num 7)])], [], [], some 50⟩ 60
      ⟨[], fun _ => .error "HTTP 500"⟩ 7).1
    (JObj.ofList [("id", .num 7)]) rfl (by decide)

/-- C1: for every well-formed table, row-fields mapping and match
filter — when the filter is supplied and at least one unarchived row
matches it, `create_or_update_row` updates the first matching row's
fields in place (the result keeps that row's id, no row is added and
the fresh-id counter does not move); when the filter matches zero
rows, or no filter is supplied, it creates a new row carrying exactly
the given fields under a fresh id never used by an existing row. -/
theorem claim_C1_create_or_update_row (st : NotionStore) (properties : JObj)
    (f : NFilter) (hWF : st.WF) :
    (∀ p ps, st.rows.filter (fun r => !r.archived && f r.props) = p :: ps →
      create_or_update_row st properties (some f) =
        .ok (⟨p.id, jobjUpdate p.props properties, p.archived⟩,
          ⟨st.rows.map (fun q =>
              if q.id == p.id then ⟨q.id, jobjUpdate q.props properties, q.archived⟩
              else q), st.nextId, st.pageSize⟩)) ∧
    (st.rows.filter (fun r => !r.archived && f r.props) = [] →
      create_or_update_row st properties (some f) =
        .ok (⟨st.nextId, properties, false⟩,
          ⟨st.rows ++ [⟨st.nextId, properties, false⟩], st.nextId + 1,
            st.pageSize⟩) ∧
      ∀ r ∈ st.rows, r.id ≠ st.nextId) ∧
    (create_or_update_row st properties none =
        .ok (⟨st.nextId, properties, false⟩,
          ⟨st.rows ++ [⟨st.nextId, properties, false⟩], st.nextId + 1,
            st.pageSize⟩) ∧
      ∀ r ∈ st.rows, r.id ≠ st.nextId) := by
  obtain ⟨hnd, hlt, hpos⟩ := hWF
  refine ⟨?_, ?_, ?_⟩
  · intro p ps hms
    have hpmem : p ∈ st.rows := by
      have hpm : p ∈ st.rows.filter (fun r => !r.archived && f r.props) := by
        rw [hms]; exact List.mem_cons_self _ _
      exact List.mem_of_mem_filter hpm
    obtain ⟨k, hk⟩ : ∃ k, st.pageSize = k + 1 :=
      ⟨st.pageSize - 1, (Nat.succ_pred_eq_of_pos hpos).symm⟩
    have hq : query_database st (some f) = p :: ps.take k := by
      simp [query_database, hms, hk]
    have hfind := find_by_id_of_mem st.rows p hpmem hnd
    simp [create_or_update_row, hq, update_page, hfind]
  · intro hms
    have hq : query_database st (some f) = [] := by
      simp [query_database, hms]
    refine ⟨by simp [create_or_update_row, hq, create_page], ?_⟩
    intro r hr
    exact Nat.ne_of_lt (hlt r hr)
  · refine ⟨by simp [create_or_update_row, create_page], ?_⟩
    intro r hr
    exact Nat.ne_of_lt (hlt r hr)

/-- C1 (witness): in a concrete two-row table, upserting with a
filter matching only the second row updates that row in place,
keeping its id 2 and adding no row. -/
theorem claim_C1_create_or_update_row_witness :
    create_or_update_row
        ⟨[⟨1, JObj.ofList [("Name", .str "x")], false⟩,
          ⟨2, JObj.ofList [("Name", .str "y")], false⟩], 3, 100⟩
        (JObj.ofList [("Status", .str "done")])
        (some (fun p => jobjGet p "Name" == some (.str "y"))) =
      .ok (⟨2, jobjUpdate (JObj.ofList [("Name", .str "y")])
          (JObj.ofList [("Status", .str "done")]), false⟩,
        ⟨[⟨1, JObj.ofList [("Name", .str "x")], false⟩,
          ⟨2, jobjUpdate (JObj.ofList [("Name", .str "y")])
            (JObj.ofList [("Status", .str "done")]), false⟩], 3, 100⟩) :=
  (claim_C1_create_or_update_row
      ⟨[⟨1, JObj.ofList [("Name", .str "x")], false⟩,
        ⟨2, JObj.ofList [("Name", .str "y")], false⟩], 3, 100⟩
      (JObj.ofList [("Status", .str "done")])
      (fun p => jobjGet p "Name" == some (.str "y")) (by decide)).1
    ⟨2, JObj.ofList [("Name", .str "y")], false⟩ [] (by decide)

/-- C2: evaluation at the failing input.  With a response page size of
1 and two unarchived rows matching the filter, `delete_pages_where`
issues a single query, archives only the one row of the first response
page and returns 1 — although 2 rows matched — leaving one matching
row unarchived.  The code never follows the query response's
continuation cursor (`query_database` reads only `results`), so the
claimed paging-until-exhausted behavior does not hold. -/
theorem claim_C2_delete_pages_where_ignores_cursor :
    ((⟨[⟨1, JObj.ofList [("k", .str "x")], false⟩,
        ⟨2, JObj.ofList [("k", .str "x")], false⟩], 3, 1⟩ : NotionStore).rows.filter
      (fun r => !r.archived && (jobjGet r.props "k" == some (.str "x")))).length = 2 ∧
    (delete_pages_where
      ⟨[⟨1, JObj.ofList [("k", .str "x")], false⟩,
        ⟨2, JObj.ofList [("k", .str "x")], false⟩], 3, 1⟩
      (fun p => jobjGet p "k" == some (.str "x"))).1 = 1 ∧
    ((delete_pages_where
      ⟨[⟨1, JObj.ofList [("k", .str "x")], false⟩,
        ⟨2, JObj.ofList [("k", .str "x")], false⟩], 3, 1⟩
      (fun p => jobjGet p "k" == some (.str "x"))).2.rows.filter
      (fun r => !r.archived && (jobjGet r.props "k" == some (.str "x")))).length = 1 := by
  refine ⟨by decide, by decide, by decide⟩

/-- C8: a `delete_pages_where` call whose filter matches zero
unarchived rows returns the count 0 and performs no delete (archive)
calls — the store is returned unchanged. -/
theorem claim_C8_delete_pages_where_zero_matches (st : NotionStore)
    (f : NFilter)
    (h : st.rows.filter (fun r => !r.archived && f r.props) = []) :
    delete_pages_where st f = (0, st) := by
  have hq : query_database st (some f) = [] := by
    simp [query_database, h]
  simp [delete_pages_where, hq]

/-- C8 (witness): concrete two-row table, filter matching nothing. -/
theorem claim_C8_delete_pages_where_zero_matches_witness :
    delete_pages_where
        ⟨[⟨1, JObj.ofList [("k", .str "x")], false⟩,
          ⟨2, JObj.ofList [("k", .str "y")], false⟩], 3, 100⟩
        (fun p => jobjGet p "k" == some (.str "zzz")) =
      (0, ⟨[⟨1, JObj.ofList [("k", .str "x")], false⟩,
          ⟨2, JObj.ofList [("k", .str "y")], false⟩], 3, 100⟩) :=
  claim_C8_delete_pages_where_zero_matches
    ⟨[⟨1, JObj.ofList [("k", .str "x")], false⟩,
      ⟨2, JObj.ofList [("k", .str "y")], false⟩], 3, 100⟩
    (fun p => jobjGet p "k" == some (.str "zzz")) (by decide)

/-- C9 (counterexample): NUMBER is one of the supported property
types, yet `format_property(NUMBER, "abc")` raises: the branch applies
`float(value)` to the non-`None` value, which fails on a non-numeric
string.  The claim's "for every supported type it returns the
formatted shape without error" is therefore false for every value. -/
theorem claim_C9_counterexample :
    NotionPropertyType.NUMBER.supported = true ∧
    format_property NotionPropertyType.NUMBER (.str "abc") =
      .error (.valueError "could not convert to float: abc") := by
  exact ⟨rfl, by decide⟩

/-- C9 (amended): `format_property` is a pure function — hence any
error it raises happens at format time, before any network request
could be attempted.  A property type outside the supported set (title,
rich text, number, select, multi-select, date, checkbox, url, files)
always raises `ValueError` immediately; a supported type returns the
formatted shape without error whenever the branch's value conversion
succeeds (`NUMBER` needs `None` or a value `float()` accepts,
`MULTI_SELECT` needs an iterable value; the other supported branches
accept every value). -/
theorem claim_C9_format_property (prop_type : NotionPropertyType)
    (value : JVal) :
    (prop_type.supported = false →
      format_property prop_type value =
        .error (.valueError ("Unsupported property type: " ++ prop_type.pyName))) ∧
    (prop_type.supported = true → formatConvOk prop_type value = true →
      ∃ d, format_property prop_type value = .ok d) := by
  constructor
  · intro hsup
    cases prop_type <;>
      simp_all [NotionPropertyType.supported, format_property,
        NotionPropertyType.pyName]
  · intro hsup hconv
    cases prop_type <;>
      simp_all [NotionPropertyType.supported, format_property, formatConvOk]
    · -- NUMBER
      rcases hconv with h | h
      · simp [h]
      · split
        · exact ⟨_, rfl⟩
        · exact ⟨_, rfl⟩
    · -- MULTI_SELECT
      cases value <;> simp_all [pyIterate]
    · -- FILES
      cases value <;> try exact ⟨_, rfl⟩
      · case dict o =>
          cases ho : jobjGet o "url" <;> simp [ho]

/-- C9 (witness): the amended theorem applied at `RELATION` (an
unsupported type raising immediately) and at `TITLE` with a numeric
value (a supported type formatting without error). -/
theorem claim_C9_format_property_witness :
    format_property NotionPropertyType.RELATION (.num 1) =
      .error (.valueError
        ("Unsupported property type: " ++ NotionPropertyType.RELATION.pyName)) ∧
    ∃ d, format_property NotionPropertyType.TITLE (.num 3) = .ok d :=
  ⟨(claim_C9_format_property NotionPropertyType.RELATION (.num 1)).1 rfl,
   (claim_C9_format_property NotionPropertyType.TITLE (.num 3)).2 rfl rfl⟩
